import Mathlib

/-!
Verification model of the Atlas AI agent's worker resource manager
(`scripts/model_server_manager.py`) and dispatcher (`scripts/proxy.py`).
Pure shallow embedding: OS effects (process spawn/kill, port binding,
RAM probing, clock, persisted-state writes) are threaded explicitly as
an environment record and an effect log on the state.
-/

namespace Atlas

/-! ## Python string helpers (shallow embeddings of `str.strip`, `in`, `re.sub`) -/

/-- Whitespace characters trimmed by Python's `str.strip()` (ASCII subset). -/
def isPySpace (c : Char) : Bool :=
  c = ' ' || c = '\t' || c = '\n' || c = '\r' || c = '\x0b' || c = '\x0c'

/-- Python `str.strip()`: drop leading and trailing whitespace. -/
def pyStrip (s : String) : String :=
  ⟨(((s.data.dropWhile isPySpace).reverse.dropWhile isPySpace).reverse)⟩

/-- Case-insensitive-optional character equality (`re.IGNORECASE`). -/
def chEq (ci : Bool) (a b : Char) : Bool :=
  if ci then a.toLower = b.toLower else a = b

/-- Does `pat` occur at the start of `s` (char-by-char, optionally case-insensitive)? -/
def matchesAt (ci : Bool) : List Char → List Char → Bool
  | [], _ => true
  | _ :: _, [] => false
  | a :: as, b :: bs => chEq ci a b && matchesAt ci as bs

/-- Python `needle in hay` for strings: contiguous-substring test. -/
def subList (needle : List Char) : List Char → Bool
  | [] => matchesAt false needle []
  | c :: rest => matchesAt false needle (c :: rest) || subList needle rest

/-- Python `needle in hay` on `String`. -/
def strIn (needle hay : String) : Bool :=
  subList needle.data hay.data

/-- Scan for the earliest occurrence of the literal closer `cl` (the lazy `.*?`
in the source regexes matches the shortest middle); without `re.DOTALL` the
middle may not cross a newline. Returns the remainder after the closer. -/
def findClose (ci dotAll : Bool) (cl : List Char) : List Char → Option (List Char)
  | [] => if matchesAt ci cl [] then some [] else none
  | c :: rest =>
    if matchesAt ci cl (c :: rest) then some ((c :: rest).drop cl.length)
    else if !dotAll && c = '\n' then none
    else findClose ci dotAll cl rest

/-- One fueled pass of `re.sub(op .*? cl, '', s)`: delete every
leftmost-shortest `op…cl` span. Fuel is the input length; every recursive
call consumes at least one character, so the fuel never runs out. -/
def stripSpansAux (ci dotAll : Bool) (op cl : List Char) : Nat → List Char → List Char
  | 0, s => s
  | _ + 1, [] => []
  | fuel + 1, c :: rest =>
    if matchesAt ci op (c :: rest) then
      match findClose ci dotAll cl ((c :: rest).drop op.length) with
      | some rem => stripSpansAux ci dotAll op cl fuel rem
      | none => c :: stripSpansAux ci dotAll op cl fuel rest
    else c :: stripSpansAux ci dotAll op cl fuel rest

/-- `re.sub(op .*? cl, '', s)` with optional `re.IGNORECASE` / `re.DOTALL`. -/
def stripSpans (ci dotAll : Bool) (op cl : List Char) (s : List Char) : List Char :=
  stripSpansAux ci dotAll op cl s.length s

/-- `re.sub(r'analysis.*?$', '', s, flags=DOTALL|IGNORECASE)`: with `DOTALL`
and end-anchoring this truncates at the first case-insensitive `analysis`
(a trailing newline the lazy match may leave behind is removed by the
`strip()` that always follows in the source). -/
def truncAnalysis : List Char → List Char
  | [] => []
  | c :: rest =>
    if matchesAt true ['a','n','a','l','y','s','i','s'] (c :: rest) then []
    else c :: truncAnalysis rest

/-- The backend-leak cleanup applied to the final reply text
(`proxy.py` lines 204–208): four `re.sub` passes then `strip()`. -/
def cleanResponse (s : String) : String :=
  let l := s.data
  let l := stripSpans false false ['<','|'] ['|','>'] l
  let l := stripSpans true true ['<','t','h','i','n','k','>'] ['<','/','t','h','i','n','k','>'] l
  let l := stripSpans true true ['<','c','h','a','n','n','e','l','>'] ['<','/','c','h','a','n','n','e','l','>'] l
  let l := truncAnalysis l
  pyStrip ⟨l⟩

/-! ## Dispatcher data model (`proxy.py`) -/

/-- A chat message (`{"role": ..., "content": ...}`). -/
structure Msg where
  role : String
  content : String
deriving DecidableEq

/-- Inbound request body (`ChatRequest` pydantic model, `proxy.py` 54–58).
No validator constrains the length of `messages`. -/
structure ChatRequest where
  model : Option String
  messages : List Msg
  temperature : ℚ
  maxTokens : ℚ
deriving DecidableEq

/-- Outbound worker payload (`req.model_dump(exclude={"model"})` plus the
keys the dispatcher adds at `proxy.py` 152–163). -/
structure Payload where
  messages : List Msg
  temperature : ℚ
  maxTokens : ℚ
  repetitionPenalty : ℚ
  stop : List String
deriving DecidableEq

/-- `anti_cot_system` message (`proxy.py` 161). -/
def antiCotSystem : Msg :=
  { role := "system"
    content := "Respond directly without reasoning, analysis, tags like <think>, <channel>, or extra text. Output only the final response. No CoT." }

/-- `anti_cot_user` message (`proxy.py` 162). -/
def antiCotUser : Msg :=
  { role := "user", content := "Direct answer only, no reasoning." }

/-- Continuation instruction appended on each short-reply retry (`proxy.py` 197). -/
def contMsg : Msg :=
  { role := "user", content := "Generate a complete, detailed response." }

/-- Fixed apology substituted for an empty final text (`proxy.py` 212). -/
def apologyStr : String :=
  "Sorry, response generation failed. Please try again."

/-- Payload construction, `proxy.py` 152–163: copy the request minus `model`,
add `repetition_penalty = 1.2` and `stop = ["<|end|>"]`, override
`max_tokens` to 2048 when the route name contains `creative` or `reasoning`,
then wrap the messages with the anti-CoT system/user pair. -/
def buildPayload (req : ChatRequest) (route : String) : Payload :=
  let p : Payload :=
    { messages := req.messages
      temperature := req.temperature
      maxTokens := req.maxTokens
      repetitionPenalty := 6/5
      stop := ["<|end|>"] }
  let p := if strIn "creative" route || strIn "reasoning" route
           then { p with maxTokens := 2048 } else p
  { p with messages := antiCotSystem :: (p.messages ++ [antiCotUser]) }

/-- Payload mutation performed after each below-threshold reply
(`proxy.py` 197–199): append the continuation message, raise the token
budget by 512, set temperature to 0.8. -/
def retryBump (p : Payload) : Payload :=
  { p with messages := p.messages ++ [contMsg]
           maxTokens := p.maxTokens + 512
           temperature := 4/5 }

/-- Degenerate-output retry loop (`proxy.py` 187–199). `replies` are the
successive worker reply texts (one per attempt; the source runs exactly
`range(3)` iterations, so the dispatcher passes a three-element list).
Each reply is `strip()`ped; a reply is accepted when its length is
strictly greater than 50; otherwise the payload is bumped and the next
attempt consumed. Returns the accumulated `response_text` — which is the
initial `""` when no reply was accepted — and the final payload. -/
def degenRetry : List String → Payload → String × Payload
  | [], p => ("", p)
  | r :: rest, p =>
    let t := pyStrip r
    if t.length > 50 then (t, p)
    else degenRetry rest (retryBump p)

/-- Response finalization (`proxy.py` 204–212): clean backend leaks from
`response_text`, then substitute the apology string iff the cleaned text
is empty. -/
def finalize (t : String) : String :=
  let c := cleanResponse t
  if c = "" then apologyStr else c

/-! ## Worker pool model (`model_server_manager.py`)

The manager's OS-facing effects are threaded explicitly: the environment
`Env` supplies the outcomes of external probes (registry file, model
directory, RAM, port bind tests, pid liveness, health check, clock), and
the state `MgrState` logs spawned/killed pids and `_save_state` calls
alongside the `self.active` table and the `itertools.cycle` port cursor. -/

/-- One registry entry (`models_registry.yaml` route): worker folder and
`ram_gb_approx`. -/
structure RouteInfo where
  folder : String
  ramGbApprox : ℚ
deriving DecidableEq

/-- One entry of `self.active`: `{"port": …, "pid": …, "last_used": …}`. -/
structure WorkerRecord where
  port : Nat
  pid : Nat
  lastUsed : Int
deriving DecidableEq

/-- Network policy (`network.yaml` `model_server` section). -/
structure NetConfig where
  portPool : List Nat
  maxConcurrent : Nat
  ramMarginGb : ℚ
  largeThresholdGb : ℚ
  idleTimeoutMin : Int
deriving DecidableEq

/-- External-world probe outcomes for one manager operation. -/
structure Env where
  registry : List (String × RouteInfo)
  modelDirExists : String → Bool
  freeRamGb : ℚ
  portIsFree : Nat → Bool
  pidAlive : Nat → Bool
  healthOk : Bool
  newPid : Nat
  now : Int

/-- Manager state: the `self.active` table (an insertion-ordered map, as a
Python dict is), the rotating port cursor, and an effect log — pids handed
to `subprocess.Popen`, pids signalled by `os.kill`, and the number of
`_save_state` writes of the persisted table. -/
structure MgrState where
  active : List (String × WorkerRecord)
  portCursor : Nat
  spawned : List Nat
  killed : List Nat
  saves : Nat
deriving DecidableEq

/-- Python dict lookup on an insertion-ordered association list. -/
def lookupA {β : Type} : List (String × β) → String → Option β
  | [], _ => none
  | (k', v) :: rest, k => if k' = k then some v else lookupA rest k

/-- Python `del d[k]`: remove the (unique) binding for `k`. -/
def eraseA {β : Type} : List (String × β) → String → List (String × β)
  | [], _ => []
  | (k', v) :: rest, k => if k' = k then rest else (k', v) :: eraseA rest k

/-- Python `d[k] = v`: update in place if present, else append. -/
def upsertA {β : Type} : List (String × β) → String → β → List (String × β)
  | [], k, v => [(k, v)]
  | (k', v') :: rest, k, v =>
    if k' = k then (k, v) :: rest else (k', v') :: upsertA rest k v

/-- Python `min(d, key=…)` scan: keep the first strictly-smaller
`last_used`, so the first minimal key wins ties, as Python's `min` does. -/
def minByAux (bestR : String) (bestRec : WorkerRecord) :
    List (String × WorkerRecord) → String × WorkerRecord
  | [] => (bestR, bestRec)
  | (r, rec) :: rest =>
    if rec.lastUsed < bestRec.lastUsed then minByAux r rec rest
    else minByAux bestR bestRec rest

/-- `min(self.active, key=lambda r: self.active[r].get("last_used", 0))`
(`model_server_manager.py` 137); `none` on an empty table, where the
source's `min` would raise. -/
def minByLastUsed : List (String × WorkerRecord) → Option String
  | [] => none
  | (r, rec) :: rest => some (minByAux r rec rest).1

/-- `_is_active_inference` (`model_server_manager.py` 84–88): a route is
protected while `now - last_used < 120`. -/
def isActiveInference (env : Env) (active : List (String × WorkerRecord)) (route : String) : Bool :=
  match lookupA active route with
  | none => false
  | some rec => env.now - rec.lastUsed < 120

/-- `_unload_route` (`model_server_manager.py` 90–115): no-op when the
route is absent or inside its protection window; otherwise signal the pid
(SIGTERM then SIGKILL — logged as one `killed` entry), wait for the port,
delete the record and persist. -/
def unloadRoute (env : Env) (st : MgrState) (route : String) : MgrState :=
  match lookupA st.active route with
  | none => st
  | some rec =>
    if env.now - rec.lastUsed < 120 then st
    else
      { st with active := eraseA st.active route
                killed := st.killed ++ [rec.pid]
                saves := st.saves + 1 }

/-- Capacity-eviction prelude of `start_server`
(`model_server_manager.py` 136–138): when the table is at or above
`max_concurrent`, unload the globally least-recently-used route
(whether or not it is protected — `_unload_route` then decides). -/
def capacityStep (cfg : NetConfig) (env : Env) (st : MgrState) : MgrState :=
  if st.active.length ≥ cfg.maxConcurrent then
    match minByLastUsed st.active with
    | some oldest => unloadRoute env st oldest
    | none => st
  else st

/-- `next(self.port_cycle)`: the pool is scanned cyclically from a
persistent cursor. -/
def nextPort (pool : List Nat) (cursor : Nat) : Nat × Nat :=
  (pool.getD (cursor % pool.length) 0, cursor + 1)

/-- The bounded `while not self._port_is_free(port)` scan
(`model_server_manager.py` 157–161), at most `2 * |pool|` extra draws. -/
def pickPortGo (pool : List Nat) (free : Nat → Bool) : Nat → Nat → Nat → Nat × Nat
  | port, cursor, 0 => (port, cursor)
  | port, cursor, remaining + 1 =>
    if free port then (port, cursor)
    else
      let (p, c) := nextPort pool cursor
      pickPortGo pool free p c remaining

/-- Port selection (`model_server_manager.py` 155–164): draw, scan for a
bindable port, re-test the final candidate; `none` means `NoFreePort`. -/
def pickPort (pool : List Nat) (free : Nat → Bool) (cursor : Nat) : Option Nat × Nat :=
  let (p0, c0) := nextPort pool cursor
  let (p, c) := pickPortGo pool free p0 c0 (pool.length * 2)
  (if free p then some p else none, c)

/-- Result of `start_server` / `get_port`. The source returns `None` on
every failure; the constructors name its distinct early-return paths
(`model_server_manager.py` 142, 147, 153, 164, 188). -/
inductive AcquireResult where
  | ok (port : Nat)
  | unknownRoute
  | modelMissing
  | insufficientMemory
  | noFreePort
  | startupTimeout
deriving DecidableEq

/-- Body of `start_server` after the capacity-eviction prelude
(`model_server_manager.py` 140–192): registry check, model-path check,
RAM admission, port selection, spawn, health poll, record insert +
persist. -/
def startServerPost (cfg : NetConfig) (env : Env) (st : MgrState) (route : String) :
    AcquireResult × MgrState :=
  match lookupA env.registry route with
  | none => (.unknownRoute, st)
  | some info =>
    if !env.modelDirExists info.folder then (.modelMissing, st)
    else if info.ramGbApprox ≥ cfg.largeThresholdGb
            ∧ env.freeRamGb < info.ramGbApprox + cfg.ramMarginGb then
      (.insufficientMemory, st)
    else
      match pickPort cfg.portPool env.portIsFree st.portCursor with
      | (none, c) => (.noFreePort, { st with portCursor := c })
      | (some port, c) =>
        let pid := env.newPid
        let st := { st with portCursor := c, spawned := st.spawned ++ [pid] }
        if !env.healthOk then
          (.startupTimeout, { st with killed := st.killed ++ [pid] })
        else
          (.ok port,
           { st with active := upsertA st.active route ⟨port, pid, env.now⟩
                     saves := st.saves + 1 })

/-- `start_server` (`model_server_manager.py` 135–192): capacity eviction
first, then validation, admission, spawn. -/
def startServer (cfg : NetConfig) (env : Env) (st : MgrState) (route : String) :
    AcquireResult × MgrState :=
  startServerPost cfg env (capacityStep cfg env st) route

/-- `get_port` (`model_server_manager.py` 194–205): fast path refreshes
`last_used` and persists when the recorded pid is alive; a dead pid
discards the stale record (persisting the removal) before a fresh
`start_server`. -/
def getPort (cfg : NetConfig) (env : Env) (st : MgrState) (route : String) :
    AcquireResult × MgrState :=
  match lookupA st.active route with
  | some rec =>
    if env.pidAlive rec.pid then
      (.ok rec.port,
       { st with active := upsertA st.active route { rec with lastUsed := env.now }
                 saves := st.saves + 1 })
    else
      startServer cfg env
        { st with active := eraseA st.active route, saves := st.saves + 1 } route
  | none => startServer cfg env st route

/-! ## Dispatcher spine (`proxy.py` `chat_completions`)

External collaborators are abstracted as environment fields: the route
oracle branch (router HTTP call plus its defensive parsing, lines
70–132, every failure path of which yields `"general_fast"`), the worker
pool (`mgr.get_port`), the memory collaborator (whose raised exceptions
the source catches and ignores), backend transport, and the successive
worker reply texts. -/

/-- Per-request collaborator outcomes for one `chat_completions` call. -/
structure DispatchEnv where
  availableRoutes : List String
  oracleRoute : String
  acquire : String → Option Nat
  memories : Option (List String)
  transportError : Bool
  replies : List String

/-- Terminal outcome of the handler: a returned body, an explicit
`HTTPException`, or an uncaught exception (FastAPI's 500). -/
inductive DispatchOutcome where
  | ok (content : String) (modelField : String)
  | httpError (status : Nat) (detail : String)
  | internalError (detail : String)
deriving DecidableEq

/-- Route resolution and validation (`proxy.py` 66–140): a truthy
`req.model` is used as-is, otherwise the oracle branch's result; a value
neither in `AVAILABLE_ROUTES` nor `"other"` falls back to
`general_fast`, and `"other"` itself maps to `general_fast`. -/
def resolveRoute (env : DispatchEnv) (req : ChatRequest) : String :=
  let route :=
    match req.model with
    | some m => if m = "" then env.oracleRoute else m
    | none => env.oracleRoute
  let route :=
    if route ∉ env.availableRoutes ∧ route ≠ "other" then "general_fast" else route
  if route = "other" then "general_fast" else route

/-- System message carrying retrieved memory (`proxy.py` 177). -/
def memorySystemMsg (mems : List String) : Msg :=
  { role := "system"
    content := "Relevant past memory (use if helpful):\n" ++ String.intercalate "\n" mems }

/-- The `chat_completions` handler (`proxy.py` 61–234): resolve the
route, acquire a backend port with one fallback to `general_fast` (503
when both fail), build the payload, read `req.messages[-1]` for the
memory query — an unguarded access outside any `try`, so an empty list
raises and surfaces as an internal error — optionally prepend retrieved
memory, then forward with the degenerate-output retry loop (502 on
transport failure). -/
def dispatch (env : DispatchEnv) (req : ChatRequest) : DispatchOutcome :=
  let route := resolveRoute env req
  let acq : Option (String × Nat) :=
    match env.acquire route with
    | some port => some (route, port)
    | none =>
      match env.acquire "general_fast" with
      | some port => some ("general_fast", port)
      | none => none
  match acq with
  | none => .httpError 503 "No available model server"
  | some (route, _port) =>
    let payload := buildPayload req route
    match req.messages.getLast? with
    | none => .internalError "IndexError: list index out of range"
    | some _lastMsg =>
      let payload :=
        match env.memories with
        | some mems =>
          if mems.length ≠ 0
          then { payload with messages := memorySystemMsg mems :: payload.messages }
          else payload
        | none => payload
      if env.transportError then .httpError 502 "Backend error"
      else
        let (text, _p) := degenRetry env.replies payload
        .ok (finalize text) route

/-! ## Helper lemmas -/

theorem lookupA_upsertA_self {β : Type} (l : List (String × β)) (k : String) (v : β) :
    lookupA (upsertA l k v) k = some v := by
  induction l with
  | nil => simp [upsertA, lookupA]
  | cons hd tl ih =>
    obtain ⟨k', v'⟩ := hd
    by_cases h : k' = k
    · simp [upsertA, h, lookupA]
    · simp [upsertA, h, lookupA, ih]

theorem lookupA_upsertA_ne {β : Type} (l : List (String × β)) (k k' : String) (v : β)
    (h : k' ≠ k) : lookupA (upsertA l k v) k' = lookupA l k' := by
  induction l with
  | nil =>
    show (if k = k' then some v else lookupA ([] : List (String × β)) k') = none
    rw [if_neg fun hh => h hh.symm]
    rfl
  | cons hd tl ih =>
    obtain ⟨k'', v''⟩ := hd
    by_cases hk : k'' = k
    · subst hk
      simp only [upsertA, if_pos rfl, lookupA]
      rw [if_neg fun hh => h hh.symm, if_neg fun hh => h hh.symm]
    · simp [upsertA, hk, lookupA, ih]

theorem lookupA_eq_of_mem {β : Type} (l : List (String × β)) (k : String) (v : β)
    (hm : (k, v) ∈ l) (hnd : (l.map Prod.fst).Nodup) : lookupA l k = some v := by
  induction l with
  | nil => cases hm
  | cons hd tl ih =>
    obtain ⟨k', v'⟩ := hd
    rw [List.map_cons, List.nodup_cons] at hnd
    rcases List.mem_cons.mp hm with hm | hm
    · injection hm with h1 h2
      subst h1; subst h2
      simp [lookupA]
    · have hk : k' ≠ k := by
        intro he
        apply hnd.1
        have hmm : (k, v).1 ∈ tl.map Prod.fst := List.mem_map_of_mem Prod.fst hm
        rw [he]
        exact hmm
      simp [lookupA, hk, ih hm hnd.2]

theorem minByAux_min (l : List (String × WorkerRecord)) :
    ∀ (r : String) (rec : WorkerRecord),
      (minByAux r rec l).2.lastUsed ≤ rec.lastUsed ∧
      ∀ p ∈ l, (minByAux r rec l).2.lastUsed ≤ p.2.lastUsed := by
  induction l with
  | nil => intro r rec; simp [minByAux]
  | cons hd tl ih =>
    intro r rec
    obtain ⟨r', rec'⟩ := hd
    by_cases h : rec'.lastUsed < rec.lastUsed
    · simp only [minByAux, if_pos h]
      refine ⟨le_trans (ih r' rec').1 (le_of_lt h), ?_⟩
      intro p hp
      rcases List.mem_cons.mp hp with hp | hp
      · rw [hp]; exact (ih r' rec').1
      · exact (ih r' rec').2 p hp
    · simp only [minByAux, if_neg h]
      refine ⟨(ih r rec).1, ?_⟩
      intro p hp
      rcases List.mem_cons.mp hp with hp | hp
      · rw [hp]; exact le_trans (ih r rec).1 (not_lt.mp h)
      · exact (ih r rec).2 p hp

theorem minByAux_mem (l : List (String × WorkerRecord)) :
    ∀ (r : String) (rec : WorkerRecord), minByAux r rec l ∈ (r, rec) :: l := by
  induction l with
  | nil => intro r rec; simp [minByAux]
  | cons hd tl ih =>
    intro r rec
    obtain ⟨r', rec'⟩ := hd
    by_cases h : rec'.lastUsed < rec.lastUsed
    · simp only [minByAux, if_pos h]
      rcases List.mem_cons.mp (ih r' rec') with hm | hm
      · rw [hm]; exact List.mem_cons_of_mem _ (List.mem_cons_self _ _)
      · exact List.mem_cons_of_mem _ (List.mem_cons_of_mem _ hm)
    · simp only [minByAux, if_neg h]
      rcases List.mem_cons.mp (ih r rec) with hm | hm
      · rw [hm]; exact List.mem_cons_self _ _
      · exact List.mem_cons_of_mem _ (List.mem_cons_of_mem _ hm)

theorem unloadRoute_frame (env : Env) (st : MgrState) (route : String) :
    (unloadRoute env st route).spawned = st.spawned ∧
    (unloadRoute env st route).portCursor = st.portCursor := by
  unfold unloadRoute
  cases lookupA st.active route with
  | none => exact ⟨rfl, rfl⟩
  | some rec =>
    by_cases h : env.now - rec.lastUsed < 120
    · simp [h]
    · simp [h]

theorem capacityStep_frame (cfg : NetConfig) (env : Env) (st : MgrState) :
    (capacityStep cfg env st).spawned = st.spawned ∧
    (capacityStep cfg env st).portCursor = st.portCursor := by
  unfold capacityStep
  by_cases h : st.active.length ≥ cfg.maxConcurrent
  · cases hm : minByLastUsed st.active with
    | none => simp [h, hm]
    | some oldest => simpa [h, hm] using unloadRoute_frame env st oldest
  · simp [h]

/-! ## Concrete fixtures for witnesses and counterexamples -/

/-- A small network policy: one-slot pool. -/
def cfgOne : NetConfig :=
  { portPool := [9001], maxConcurrent := 1, ramMarginGb := 2,
    largeThresholdGb := 10, idleTimeoutMin := 30 }

/-- Environment for the protection-window witness: clock at 1010. -/
def envProt : Env :=
  { registry := [], modelDirExists := fun _ => true, freeRamGb := 32,
    portIsFree := fun _ => true, pidAlive := fun _ => true,
    healthOk := true, newPid := 7, now := 1010 }

/-- State with one record last used at 1000 (10 s ago: protected). -/
def stProt : MgrState :=
  { active := [("r1", ⟨9001, 42, 1000⟩)], portCursor := 0,
    spawned := [], killed := [], saves := 0 }

/-- Environment for the fast-path witness: every pid reported alive. -/
def envFast : Env :=
  { registry := [], modelDirExists := fun _ => true, freeRamGb := 32,
    portIsFree := fun _ => true, pidAlive := fun _ => true,
    healthOk := true, newPid := 8, now := 300 }

/-- State with one healthy record on port 9005. -/
def stFast : MgrState :=
  { active := [("r1", ⟨9005, 55, 200⟩)], portCursor := 0,
    spawned := [], killed := [], saves := 0 }

/-- Environment for the RAM-admission witness: a 12 GB route with 13 GB
free against threshold 10 and margin 2. -/
def envRam : Env :=
  { registry := [("big", ⟨"bigf", 12⟩)], modelDirExists := fun _ => true,
    freeRamGb := 13, portIsFree := fun _ => true, pidAlive := fun _ => true,
    healthOk := true, newPid := 9, now := 0 }

/-- Empty pool state. -/
def stEmpty : MgrState :=
  { active := [], portCursor := 0, spawned := [], killed := [], saves := 0 }

/-! ## Claim theorems -/

/-- C7: `_unload_route(route)` is a no-op — record, port, process signals,
and persisted table all unchanged — whenever `now - last_used < 120`.
`unloadRoute` takes no network-policy argument at all, so the idle-timeout
configuration is irrelevant to this fact. -/
theorem C7_evict_noop_in_protection_window (env : Env) (st : MgrState) (route : String)
    (rec : WorkerRecord) (h1 : lookupA st.active route = some rec)
    (h2 : env.now - rec.lastUsed < 120) :
    unloadRoute env st route = st := by
  unfold unloadRoute
  rw [h1]
  simp [h2]

/-- Witness for C7: a record used 10 s ago survives `_unload_route` untouched. -/
theorem C7_witness : unloadRoute envProt stProt "r1" = stProt :=
  C7_evict_noop_in_protection_window envProt stProt "r1" ⟨9001, 42, 1000⟩
    (by decide) (by decide)

/-- C8: `get_port` on a route whose recorded pid is alive returns the
stored port, mutates only that record's `last_used` (one persist of the
same table aside): the port cursor and spawn/kill logs are untouched,
every other route's record is unchanged, the route's own record keeps its
port and pid, and a second call returns the same port again. -/
theorem C8_acquire_idempotent (cfg : NetConfig) (env : Env) (st : MgrState) (route : String)
    (rec : WorkerRecord)
    (h1 : lookupA st.active route = some rec)
    (h2 : env.pidAlive rec.pid = true) :
    (getPort cfg env st route).1 = .ok rec.port ∧
    (getPort cfg env st route).2 =
      { st with active := upsertA st.active route { rec with lastUsed := env.now },
                saves := st.saves + 1 } ∧
    lookupA (getPort cfg env st route).2.active route = some { rec with lastUsed := env.now } ∧
    (∀ r', r' ≠ route →
      lookupA (getPort cfg env st route).2.active r' = lookupA st.active r') ∧
    (∀ env' : Env, env'.pidAlive rec.pid = true →
      (getPort cfg env' (getPort cfg env st route).2 route).1 = .ok rec.port) := by
  have hgp : getPort cfg env st route =
      (.ok rec.port,
       { st with active := upsertA st.active route { rec with lastUsed := env.now },
                 saves := st.saves + 1 }) := by
    unfold getPort
    rw [h1]
    simp [h2]
  refine ⟨by rw [hgp], by rw [hgp], ?_, ?_, ?_⟩
  · rw [hgp]
    exact lookupA_upsertA_self st.active route { rec with lastUsed := env.now }
  · intro r' hne
    rw [hgp]
    exact lookupA_upsertA_ne st.active route r' { rec with lastUsed := env.now } hne
  · intro env' h'
    rw [hgp]
    have h1' : lookupA (upsertA st.active route { rec with lastUsed := env.now }) route
        = some { rec with lastUsed := env.now } :=
      lookupA_upsertA_self st.active route { rec with lastUsed := env.now }
    unfold getPort
    rw [h1']
    simp [h']

/-- Witness for C8: the fast path on a healthy record returns its port twice. -/
theorem C8_witness :
    (getPort cfgOne envFast stFast "r1").1 = .ok 9005 ∧
    (getPort cfgOne envFast (getPort cfgOne envFast stFast "r1").2 "r1").1 = .ok 9005 := by
  have h := C8_acquire_idempotent cfgOne envFast stFast "r1" ⟨9005, 55, 200⟩ (by decide) rfl
  exact ⟨h.1, h.2.2.2.2 envFast rfl⟩

/-- C6: when a registered route's approximate RAM is at or above the
large-model threshold and free RAM is below requirement plus margin,
`start_server` fails at the RAM-admission check and no process is spawned
by the call (the registry and model-path checks having passed). -/
theorem C6_ram_admission (cfg : NetConfig) (env : Env) (st : MgrState) (route : String)
    (info : RouteInfo)
    (h1 : lookupA env.registry route = some info)
    (h2 : env.modelDirExists info.folder = true)
    (h3 : info.ramGbApprox ≥ cfg.largeThresholdGb)
    (h4 : env.freeRamGb < info.ramGbApprox + cfg.ramMarginGb) :
    (startServer cfg env st route).1 = .insufficientMemory ∧
    (startServer cfg env st route).2.spawned = st.spawned := by
  have hfr := (capacityStep_frame cfg env st).1
  unfold startServer startServerPost
  rw [h1]
  simp [h2, h3, h4, hfr]

/-- Witness for C6: a 12 GB route with 13 GB free (threshold 10, margin 2)
is rejected with nothing spawned. -/
theorem C6_witness :
    (startServer cfgOne envRam stEmpty "big").1 = .insufficientMemory ∧
    (startServer cfgOne envRam stEmpty "big").2.spawned = stEmpty.spawned :=
  C6_ram_admission cfgOne envRam stEmpty "big" ⟨"bigf", 12⟩
    (by decide) rfl (by norm_num [cfgOne, envRam]) (by norm_num [cfgOne, envRam])

/-- Registry/environment where route `r2` is freshly startable while the
clock sits at 1010 (the only active record, `r1`, was used at 1000 and is
thus protected). Port 9001 is held by `r1`'s worker, so only 9002 binds. -/
def envCap : Env :=
  { registry := [("r2", ⟨"f2", 3⟩)], modelDirExists := fun _ => true,
    freeRamGb := 32, portIsFree := fun p => p == 9002, pidAlive := fun _ => true,
    healthOk := true, newPid := 43, now := 1010 }

/-- Two-port policy, single slot. -/
def cfgCap : NetConfig :=
  { portPool := [9001, 9002], maxConcurrent := 1, ramMarginGb := 2,
    largeThresholdGb := 10, idleTimeoutMin := 30 }

/-- Full (capacity 1) table whose only record is inside its protection
window at `envCap.now`. -/
def stCap : MgrState :=
  { active := [("r1", ⟨9001, 42, 1000⟩)], portCursor := 1,
    spawned := [], killed := [], saves := 0 }

/-- C2: evaluated at a reachable full state whose single record is inside
its protection window, `start_server` for a fresh route finds the
eviction a no-op yet proceeds to spawn and insert anyway, leaving two
active records against `max_concurrent = 1` — the claimed invariant
`|active records| ≤ max_concurrent` is violated by the code. -/
theorem C2_capacity_exceeded :
    cfgCap.maxConcurrent = 1 ∧
    stCap.active.length = 1 ∧
    (∀ p ∈ stCap.active, envCap.now - p.2.lastUsed < 120) ∧
    (startServer cfgCap envCap stCap "r2").1 = .ok 9002 ∧
    (startServer cfgCap envCap stCap "r2").2.active.length = 2 := by decide

/-- Environment for the C3 counterexample: route `r3` startable at clock
1100; only port 9003 binds. -/
def envCap3 : Env :=
  { registry := [("r3", ⟨"f3", 3⟩)], modelDirExists := fun _ => true,
    freeRamGb := 32, portIsFree := fun p => p == 9003, pidAlive := fun _ => true,
    healthOk := true, newPid := 44, now := 1100 }

/-- Three-port policy, two slots. -/
def cfgCap3 : NetConfig :=
  { portPool := [9001, 9002, 9003], maxConcurrent := 2, ramMarginGb := 2,
    largeThresholdGb := 10, idleTimeoutMin := 30 }

/-- Full (capacity 2) table, both records inside the protection window at
clock 1100 (idle 100 s and 50 s). -/
def stCap3 : MgrState :=
  { active := [("r1", ⟨9001, 41, 1000⟩), ("r2", ⟨9002, 42, 1050⟩)],
    portCursor := 2, spawned := [], killed := [], saves := 0 }

/-- C3 counterexample: with every active record protected, the claim
demands that `acquire` fail `NoCapacity` and spawn nothing; the code
instead evicts nothing, spawns, and inserts a third record past
`max_concurrent`. -/
theorem C3_counterexample :
    (∀ p ∈ stCap3.active, envCap3.now - p.2.lastUsed < 120) ∧
    (startServer cfgCap3 envCap3 stCap3 "r3").1 = .ok 9003 ∧
    (startServer cfgCap3 envCap3 stCap3 "r3").2.active =
      stCap3.active ++ [("r3", ⟨9003, 44, 1100⟩)] ∧
    (startServer cfgCap3 envCap3 stCap3 "r3").2.active.length > cfgCap3.maxConcurrent := by
  decide

/-- C3 (amended): at or above capacity the eviction candidate is the
globally least-recently-used record, full stop. Since its `last_used` is
minimal, it lies outside the protection window whenever any record does,
so in that case the code's choice coincides with the claimed
LRU-among-unprotected choice and the record is evicted; when every record
is protected (equivalently, when the candidate is), the eviction is a
no-op and `start_server` proceeds to the spawn path instead of failing. -/
theorem C3_amended_lru_eviction (cfg : NetConfig) (env : Env) (st : MgrState)
    (m : String) (recm : WorkerRecord)
    (hnd : (st.active.map Prod.fst).Nodup)
    (hmin : minByLastUsed st.active = some m)
    (hrec : lookupA st.active m = some recm)
    (hlen : st.active.length ≥ cfg.maxConcurrent) :
    (∀ p ∈ st.active, recm.lastUsed ≤ p.2.lastUsed) ∧
    capacityStep cfg env st =
      (if env.now - recm.lastUsed < 120 then st
       else { st with active := eraseA st.active m,
                      killed := st.killed ++ [recm.pid],
                      saves := st.saves + 1 }) ∧
    ((∃ p ∈ st.active, ¬ env.now - p.2.lastUsed < 120) →
      ¬ env.now - recm.lastUsed < 120) ∧
    (∀ route, startServer cfg env st route =
      startServerPost cfg env (capacityStep cfg env st) route) := by
  rcases hst : st.active with _ | ⟨⟨r0, rec0⟩, tl⟩
  · rw [hst] at hmin
    exact absurd hmin (by simp [minByLastUsed])
  · rw [← hst]
    have hq := minByAux_mem tl r0 rec0
    have hqm := minByAux_min tl r0 rec0
    rw [hst] at hmin
    simp only [minByLastUsed, Option.some.injEq] at hmin
    have hqmem : minByAux r0 rec0 tl ∈ st.active := by rw [hst]; exact hq
    have hlook : lookupA st.active (minByAux r0 rec0 tl).1
        = some (minByAux r0 rec0 tl).2 :=
      lookupA_eq_of_mem st.active (minByAux r0 rec0 tl).1 (minByAux r0 rec0 tl).2 hqmem hnd
    rw [hmin, hrec] at hlook
    have hrecq : recm = (minByAux r0 rec0 tl).2 := by
      injection hlook
    have hmin1 : ∀ p ∈ st.active, recm.lastUsed ≤ p.2.lastUsed := by
      intro p hp
      rw [hrecq]
      rw [hst] at hp
      rcases List.mem_cons.mp hp with hp | hp
      · rw [hp]; exact hqm.1
      · exact hqm.2 p hp
    have hms : minByLastUsed st.active = some m := by
      rw [hst]
      simp only [minByLastUsed, Option.some.injEq]
      exact hmin
    have hcs : capacityStep cfg env st =
        (if env.now - recm.lastUsed < 120 then st
         else { st with active := eraseA st.active m,
                        killed := st.killed ++ [recm.pid],
                        saves := st.saves + 1 }) := by
      have h1 : capacityStep cfg env st = unloadRoute env st m := by
        unfold capacityStep
        rw [if_pos hlen, hms]
      rw [h1]
      unfold unloadRoute
      rw [hrec]
    refine ⟨hmin1, hcs, ?_, fun _ => rfl⟩
    rintro ⟨p, hp, hnp⟩ hcontra
    have hle := hmin1 p hp
    omega

/-- Witness for the amended C3: on the all-protected full table the
capacity step leaves the state untouched (and `start_server` then
proceeds past it). -/
theorem C3_amended_witness : capacityStep cfgCap3 envCap3 stCap3 = stCap3 := by
  have h := C3_amended_lru_eviction cfgCap3 envCap3 stCap3 "r1" ⟨9001, 41, 1000⟩
    (by decide) (by decide) (by decide) (by decide)
  rw [h.2.1, if_pos (by decide)]

/-- Environment for the C4 counterexample: clock 1000, registry knows
only `r1`; any port binds. -/
def envStale : Env :=
  { registry := [("r1", ⟨"f1", 3⟩)], modelDirExists := fun _ => true,
    freeRamGb := 32, portIsFree := fun _ => true, pidAlive := fun _ => true,
    healthOk := true, newPid := 7, now := 1000 }

/-- Full (capacity 1) state whose record was last used at 100 — 900 s
ago, far outside the protection window. -/
def stStale : MgrState :=
  { active := [("r1", ⟨9001, 42, 100⟩)], portCursor := 0,
    spawned := [], killed := [], saves := 0 }

/-- C4 counterexample: `start_server` for an unregistered route, issued
against a full table with an evictable record, kills and drops that
record and rewrites the persisted table before the registry check fires —
the failing call mutates pool state, because capacity eviction precedes
route validation. -/
theorem C4_counterexample :
    (startServer cfgOne envStale stStale "zzz").1 = .unknownRoute ∧
    (startServer cfgOne envStale stStale "zzz").2.active ≠ stStale.active ∧
    (startServer cfgOne envStale stStale "zzz").2.killed ≠ stStale.killed ∧
    (startServer cfgOne envStale stStale "zzz").2.saves ≠ stStale.saves := by decide

/-- C4 (amended): a call failing `UnknownRoute`, `ModelMissing` or
`InsufficientMemory` spawns no process and inserts no record, but its
resulting state is exactly the state left by the capacity-eviction
prelude — which runs first and, at capacity, may evict the LRU
unprotected record and persist that removal before validation fails. -/
theorem C4_amended_failure_frame (cfg : NetConfig) (env : Env) (st : MgrState) (route : String)
    (res : AcquireResult) (st' : MgrState)
    (h : startServer cfg env st route = (res, st'))
    (hres : res = .unknownRoute ∨ res = .modelMissing ∨ res = .insufficientMemory) :
    st' = capacityStep cfg env st ∧ st'.spawned = st.spawned := by
  have hsp := (capacityStep_frame cfg env st).1
  unfold startServer startServerPost at h
  repeat' split at h
  all_goals
    injection h with h1 h2
  all_goals subst h2
  all_goals first
    | exact ⟨rfl, hsp⟩
    | (subst h1; rcases hres with hx | hx | hx <;> simp at hx)

/-- Witness for the amended C4: the unregistered-route failure of
`C4_counterexample`'s input ends in exactly the post-eviction state, with
nothing spawned. -/
theorem C4_amended_witness :
    (startServer cfgOne envStale stStale "zzz").2 = capacityStep cfgOne envStale stStale ∧
    (startServer cfgOne envStale stStale "zzz").2.spawned = stStale.spawned :=
  C4_amended_failure_frame cfgOne envStale stStale "zzz"
    (startServer cfgOne envStale stStale "zzz").1
    (startServer cfgOne envStale stStale "zzz").2
    rfl (by decide)

/-- A starting payload as built for a one-message request. -/
def pRetry : Payload :=
  { messages := [⟨"user", "hi"⟩], temperature := 7/10, maxTokens := 512,
    repetitionPenalty := 6/5, stop := ["<|end|>"] }

/-- A 40-character reply. -/
def s40 : String := ⟨List.replicate 40 'a'⟩

/-- A 50-character reply: exactly at the claimed threshold. -/
def s50 : String := ⟨List.replicate 50 'a'⟩

/-- A 60-character reply. -/
def l60 : String := ⟨List.replicate 60 'b'⟩

/-- C1 counterexample, two concrete refutations: (i) a first reply of
exactly 50 characters meets the claimed threshold yet is not accepted —
the code demands strictly more than 50, so the 60-character second reply
is returned instead; (ii) when all three replies stay at 40 characters
the claim promises the last attempt's (non-empty) text, but the
accumulated response text is the initial empty string, so the apology is
substituted even though the last attempt's text was non-empty. -/
theorem C1_counterexample :
    s50.length = 50 ∧
    (degenRetry [s50, l60, l60] pRetry).1 = l60 ∧
    l60 ≠ s50 ∧
    (degenRetry [s40, s40, s40] pRetry).1 = "" ∧
    s40 ≠ "" ∧
    finalize "" = apologyStr ∧
    apologyStr ≠ s40 := by decide

/-- C1 (amended): per attempt the stripped reply is accepted only when
strictly longer than 50 characters; otherwise a continuation user message
is appended, the token budget grows by 512 and temperature is set to 0.8,
for at most 3 attempts; the first reply exceeding 50 characters is the
response text; if no attempt exceeds 50 characters the response text is
the empty string — the last attempt's text is discarded — and the fixed
apology is therefore always substituted in that case. -/
theorem C1_amended_retry (r1 r2 r3 : String) (p : Payload) :
    degenRetry [r1, r2, r3] p =
      (if (pyStrip r1).length > 50 then (pyStrip r1, p)
       else if (pyStrip r2).length > 50 then (pyStrip r2, retryBump p)
       else if (pyStrip r3).length > 50 then (pyStrip r3, retryBump (retryBump p))
       else ("", retryBump (retryBump (retryBump p)))) ∧
    (retryBump p).maxTokens = p.maxTokens + 512 ∧
    (retryBump p).messages = p.messages ++ [contMsg] ∧
    finalize "" = apologyStr := by
  refine ⟨?_, rfl, rfl, by decide⟩
  simp only [degenRetry]

/-- C9: the outbound payload built at `proxy.py` 152–163 is never the
inbound message list alone: the anti-CoT system message is prepended and
the anti-CoT user instruction appended, `repetition_penalty` is fixed at
1.2 and the stop list at `["<|end|>"]`, and `max_tokens` is forced to
2048 — whatever the caller requested — exactly when the resolved route
name contains `creative` or `reasoning`. -/
theorem C9_payload_construction (req : ChatRequest) (route : String) :
    (buildPayload req route).messages = antiCotSystem :: (req.messages ++ [antiCotUser]) ∧
    (buildPayload req route).messages ≠ req.messages ∧
    (buildPayload req route).repetitionPenalty = 6/5 ∧
    (buildPayload req route).stop = ["<|end|>"] ∧
    (buildPayload req route).temperature = req.temperature ∧
    (buildPayload req route).maxTokens =
      (if strIn "creative" route || strIn "reasoning" route then 2048 else req.maxTokens) := by
  have hmsg : (buildPayload req route).messages
      = antiCotSystem :: (req.messages ++ [antiCotUser]) := by
    unfold buildPayload
    split <;> rfl
  refine ⟨hmsg, ?_, ?_, ?_, ?_, ?_⟩
  · intro hcontra
    rw [hmsg] at hcontra
    have hlen := congrArg List.length hcontra
    simp at hlen
    omega
  · unfold buildPayload; split <;> rfl
  · unfold buildPayload; split <;> rfl
  · unfold buildPayload; split <;> rfl
  · unfold buildPayload; split <;> rfl

/-- C10: an inbound request whose `messages` list is empty sails through
route resolution and port acquisition (no length validation exists on the
pydantic model or in the handler) and then hits the unguarded
`req.messages[-1]` access at `proxy.py` 166, which sits outside every
`try` block — the request dies with an uncaught IndexError (HTTP 500),
not a validation rejection. The only hypothesis is that a backend port
was acquired (otherwise the handler 503s before reaching line 166). -/
theorem C10_empty_messages_internal_error (env : DispatchEnv) (req : ChatRequest)
    (h0 : req.messages = [])
    (h1 : (env.acquire (resolveRoute env req)).isSome = true ∨
          (env.acquire "general_fast").isSome = true) :
    dispatch env req = .internalError "IndexError: list index out of range" := by
  unfold dispatch
  rcases hA : env.acquire (resolveRoute env req) with _ | portA
  · rcases hB : env.acquire "general_fast" with _ | portB
    · rw [hA] at h1
      rw [hB] at h1
      rcases h1 with h1 | h1 <;> simp at h1
    · simp [hA, hB, h0]
  · simp [hA, h0]

/-- Collaborator outcomes for the C10 witness: pool always grants 9001. -/
def envDisp : DispatchEnv :=
  { availableRoutes := ["general_fast"], oracleRoute := "general_fast",
    acquire := fun _ => some 9001, memories := none,
    transportError := false, replies := [] }

/-- An inbound request with an empty messages list. -/
def reqEmpty : ChatRequest :=
  { model := none, messages := [], temperature := 7/10, maxTokens := 512 }

/-- Witness for C10: the concrete empty-messages request ends in the
internal (500) outcome. -/
theorem C10_witness :
    dispatch envDisp reqEmpty = .internalError "IndexError: list index out of range" :=
  C10_empty_messages_internal_error envDisp reqEmpty rfl (Or.inl (by decide))

end Atlas
